import Mathlib

/-!
Verification of the NVMe-oF target wrapper of `rust-spdk`.

The development shallowly embeds `src/spdk/src/nvmf/target.rs` and
`src/spdk-sys/src/macros.rs`. Raw C pointers are modelled as natural
numbers with `0` standing for the null pointer; raw `c_int` status values
are modelled as `Int`. Collaborator behaviour (the SPDK runtime's FFI
functions) is passed in as explicit function parameters. Parts of the
crate that are referenced from `target.rs` but whose source is not part
of the excerpt (the `task::Promise` completion bridge, the `errors`
constants, `Subsystem`/`Transport` methods) are modelled from the spec;
each such definition carries a doc comment saying so.
-/

/- ### Status conversion (`src/spdk-sys/src/macros.rs`) -/

/-- Outcome of the `to_result!` macro: `ok` for a zero status, `err e` for a
negative status carrying the negated (positive) code, and `unreachable` for
the `unreachable!()` arm hit by a positive status. -/
inductive ToResult where
  | ok : ToResult
  | err : Int → ToResult
  | unreachable : ToResult
deriving DecidableEq

/-- The `to_result!` macro (macros.rs lines 7-15): `Errno(0) => Ok(())`,
`Errno(e) if e < 0 => Err(Errno(-e))`, otherwise `unreachable!()`. -/
def to_result (r : Int) : ToResult :=
  if r = 0 then .ok
  else if r < 0 then .err (-r)
  else .unreachable

/-- The `to_result_size!` macro (macros.rs lines 24-31): a negative return is
`Err(Errno(-e))`, a non-negative return is `Ok(s as usize)`. -/
def to_result_size (r : Int) : Except Int Nat :=
  if r < 0 then .error (-r) else .ok r.toNat

/-- Modelled from the spec: `EINPROGRESS` from the crate's `errors` module
(not part of the excerpt) — the standard errno signalling that an operation
was accepted and completes asynchronously. -/
def EINPROGRESS : Int := 115

/-- Modelled from the spec: `ENOMEM` from the crate's `errors` module (not
part of the excerpt) — the standard out-of-memory errno. -/
def ENOMEM : Int := 12

/- ### Resource handle types (`src/spdk/src/nvmf/target.rs`) -/

/-- The struct `Target(NonNull<spdk_nvmf_tgt>)`: wraps a non-null handle. The handle is
a raw pointer modelled as a natural number, `0` standing for null. -/
structure Target where
  handle : Nat
deriving DecidableEq

/-- The constructor `Target::from_ptr` (target.rs lines 73-78): `NonNull::new` succeeds on a
non-null pointer; a null pointer hits `panic!`, modelled as `none`. -/
def Target.from_ptr (ptr : Nat) : Option Target :=
  if ptr = 0 then none else some ⟨ptr⟩

/-- Lifecycle states of a subsystem (spec §4.4). -/
inductive SubsystemState where
  | inactive : SubsystemState
  | active : SubsystemState
  | paused : SubsystemState
deriving DecidableEq

/-- A subsystem: its non-null raw handle together with the lifecycle state
the collaborator holds for it. -/
structure Subsystem where
  handle : Nat
  state : SubsystemState
deriving DecidableEq

/-- Modelled from the spec: `Subsystem::from_ptr` (the `subsystem` module is
not part of the excerpt) wraps a non-null handle, panicking on null
(`none`); a freshly created subsystem is in the `Inactive` state. -/
def Subsystem.from_ptr (ptr : Nat) : Option Subsystem :=
  if ptr = 0 then none else some ⟨ptr, .inactive⟩

/- ### `Target::add_transport` (target.rs lines 86-117) -/

/-- A transport handle, before ownership is transferred to a target. -/
structure Transport where
  handle : Nat
deriving DecidableEq

/-- The caller-observable outcome of `Target::add_transport`: `result` is
the returned value, `none` modelling the panic of
`transport.destroy().await.expect(..)` when the explicit teardown fails;
`forgotten` records whether `mem::forget(transport)` ran, neutralizing the
caller's value so its destructor never runs (ownership transferred to the
target); `destroyedByCall` records whether `add_transport` itself invoked
`transport.destroy()`. -/
structure AddTransportOutcome where
  result : Option (Except Int Unit)
  forgotten : Bool
  destroyedByCall : Bool

/-- The method `Target::add_transport` (target.rs lines 86-117) as a function of the
awaited promise result `res` (the status that `complete_with_status`
delivers for the `spdk_nvmf_tgt_add_transport` registration) and of the
awaited result `destroyRes` of `transport.destroy()`, which is only
consulted on the failure path. Modelled from the spec:
`Transport::destroy` (the `transport` module is not part of the excerpt) is
a suspending operation returning a status result. -/
def add_transport (res : Except Int Unit) (destroyRes : Except Int Unit) :
    AddTransportOutcome :=
  match res with
  | .ok _ => ⟨some (.ok ()), true, false⟩
  | .error e =>
    match destroyRes with
    | .ok _ => ⟨some (.error e), false, true⟩
    | .error _ => ⟨none, false, true⟩

/- ### `Target::add_subsystem` (target.rs lines 146-156) -/

/-- The method `Target::add_subsystem` (target.rs lines 146-156): `created` models the
raw pointer returned by `spdk_nvmf_subsystem_create`, with `0` for null. A
null handle yields `Err(ENOMEM)`; otherwise the handle is wrapped via
`Subsystem::from_ptr` and returned. -/
def add_subsystem (created : Nat) : Except Int (Option Subsystem) :=
  if created = 0 then .error ENOMEM
  else .ok (Subsystem.from_ptr created)

/- ### The subsystem bulk operations (target.rs lines 188-221) -/

/-- The `for subsys in self.subsystems() { subsys.op().await? }` loop shared
by `start_subsystems`, `stop_subsystems`, `pause_subsystems` and
`resume_subsystems` (target.rs lines 188-221): apply `op` to every owned
subsystem in iteration order, aborting at the first failure via `?`.
Returns the loop's result, the subsystems afterwards (transitioned ones
replaced, untouched ones kept), and the handles actually attempted, in
order. -/
def apply_subsystems (op : Subsystem → Except Int Subsystem) :
    List Subsystem → Except Int Unit × List Subsystem × List Nat
  | [] => (.ok (), [], [])
  | s :: rest =>
    match op s with
    | .error e => (.error e, s :: rest, [s.handle])
    | .ok s' =>
      let r := apply_subsystems op rest
      (r.1, s' :: r.2.1, s.handle :: r.2.2)

/-- Modelled from the spec: `Subsystem::start` (the `subsystem` module is
not part of the excerpt) — a suspending operation asking the collaborator
to activate the subsystem; on acceptance the subsystem becomes `Active`, on
rejection the collaborator's status is surfaced verbatim. `env` is the
collaborator's verdict per handle. -/
def Subsystem.start (env : Nat → Except Int Unit) (s : Subsystem) :
    Except Int Subsystem :=
  match env s.handle with
  | .ok _ => .ok ⟨s.handle, .active⟩
  | .error e => .error e

/-- The method `Target::start_subsystems` (target.rs lines 188-194): apply
`Subsystem::start` to every owned subsystem in iteration order, returning
the first failure. -/
def start_subsystems (env : Nat → Except Int Unit) (subsystems : List Subsystem) :
    Except Int Unit × List Subsystem × List Nat :=
  apply_subsystems (Subsystem.start env) subsystems

/- ### The `Targets` iterator (`src/spdk/src/nvmf/target.rs` lines 238-263) -/

/-- The struct `Targets(*mut spdk_nvmf_tgt)`: the iterator's cursor is a possibly-null
raw pointer. -/
structure Targets where
  cursor : Nat
deriving DecidableEq

/-- The method `Targets::next` (target.rs lines 245-257): if the cursor is null, return
`None`; otherwise capture the current handle, overwrite the cursor with
`spdk_nvmf_get_next_tgt` of it (parameter `next_tgt`), and return the
captured handle wrapped via `Target::from_ptr`. Returns the yielded item and
the iterator's new state. -/
def Targets.next (next_tgt : Nat → Nat) (it : Targets) : Option Target × Targets :=
  if it.cursor = 0 then (none, it)
  else (Target.from_ptr it.cursor, ⟨next_tgt it.cursor⟩)

/-- The function `targets()` (target.rs lines 261-263): a fresh iterator whose cursor is
`spdk_nvmf_get_first_tgt()` (parameter `first`). -/
def targets (first : Nat) : Targets :=
  ⟨first⟩

/-- Fuelled driver of the `Targets` iterator: repeatedly call `next`,
collecting the yielded targets until `next` returns `none` or the fuel runs
out. -/
def Targets.run (next_tgt : Nat → Nat) (it : Targets) : Nat → List Target
  | 0 => []
  | fuel + 1 =>
    match Targets.next next_tgt it with
    | (none, _) => []
    | (some t, it') => t :: Targets.run next_tgt it' fuel

/-- The collaborator's linkage order: `next_tgt` links the handles of `l` in
sequence and returns null (`0`) after the last one. -/
def isChain (next_tgt : Nat → Nat) : List Nat → Prop
  | [] => True
  | [a] => next_tgt a = 0
  | a :: b :: rest => next_tgt a = b ∧ isChain next_tgt (b :: rest)

/- ### The completion bridge (`task::Promise`, modelled from the spec) -/

/-- Modelled from the spec: the one-shot completion context handed to a
`Promise`'s registration closure (the `task` module is not part of the
excerpt). It records whether the completion function has been invoked, and
with which result. -/
structure PromiseCtx where
  completion : Option (Except Int Unit)

/-- Modelled from the spec: `complete_with_ok` — the completion function of
the `task` module that resolves the promise of the given context with
success. -/
def complete_with_ok (_cx : PromiseCtx) : PromiseCtx :=
  ⟨some (.ok ())⟩

/-- What a registration closure returns: its `Result` together with the
context as the closure left it, or `fatal` if the closure hit an
unreachable/panic path. -/
inductive RegOutcome where
  | ret : Except Int Unit → PromiseCtx → RegOutcome
  | fatal : RegOutcome

/-- The state of a promise-bridged call after the registration ran:
`resolved r` — the `await` returns `r`; `pending` — the registration
returned `Ok` without completing inline, so the `await` resolves only when
the deferred completion fires; `fatal` — an unreachable/panic path was
hit. -/
inductive AwaitState where
  | resolved : Except Int Unit → AwaitState
  | pending : AwaitState
  | fatal : AwaitState

/-- Modelled from the spec: `Promise::new(registration).await`. The
registration closure runs on a fresh context; if it returns `Err(e)` the
await resolves immediately with that error; if it returns `Ok(())` the
await resolves with the completion already delivered inline, or stays
pending until the deferred completion fires. -/
def promiseAwait (reg : PromiseCtx → RegOutcome) : AwaitState :=
  match reg ⟨none⟩ with
  | .fatal => .fatal
  | .ret (.error e) _ => .resolved (.error e)
  | .ret (.ok _) cx =>
    match cx.completion with
    | some r => .resolved r
    | none => .pending

/-- Modelled from the spec: a pending await resolves when the deferred
completion function fires on its context; a non-pending state is
unaffected. -/
def fireDeferred (st : AwaitState) (complete : PromiseCtx → PromiseCtx) : AwaitState :=
  match st with
  | .pending =>
    match (complete ⟨none⟩).completion with
    | some r => .resolved r
    | none => .pending
  | s => s

/- ### `Target::remove_subsystem` (target.rs lines 159-180) -/

/-- The registration closure of `Target::remove_subsystem` (target.rs lines
160-178): `destroyRet` is the raw return of `spdk_nvmf_subsystem_destroy`
(which was handed `complete_with_ok` as its callback). On `Ok(())` the
closure itself invokes `complete_with_ok(cx)` and returns `Ok(())`; on
`Err(EINPROGRESS)` it returns `Ok(())` leaving the completion deferred; on
any other error it returns that error. A positive return hits the
`to_result!` unreachable arm. -/
def remove_subsystem_registration (destroyRet : Int) (cx : PromiseCtx) : RegOutcome :=
  match to_result destroyRet with
  | .ok => .ret (.ok ()) (complete_with_ok cx)
  | .err e => if e = EINPROGRESS then .ret (.ok ()) cx else .ret (.error e) cx
  | .unreachable => .fatal

/-- The method `Target::remove_subsystem` (target.rs lines 159-180) as a function of
the raw return of `spdk_nvmf_subsystem_destroy`. -/
def remove_subsystem (destroyRet : Int) : AwaitState :=
  promiseAwait (remove_subsystem_registration destroyRet)

/-- A call to `Target::remove_subsystem` as the caller sees it: the
`Subsystem` argument is taken by value (moved into the call) and the return
type `Result<(), Errno>` never hands it back, so after the call the caller
retains no subsystem (second component). `env` gives the raw return of
`spdk_nvmf_subsystem_destroy` for the subsystem's handle. -/
def remove_subsystem_call (env : Nat → Int) (subsys : Subsystem) :
    AwaitState × Option Subsystem :=
  (remove_subsystem (env subsys.handle), none)

/- ### Theorems: status conversion -/

/-- C3: the status-to-result conversion yields success exactly when the raw
value is zero, an error carrying the absolute magnitude exactly when it is
negative, and hits the unreachable (fatal) arm when it is positive. -/
theorem to_result_trichotomy (v : Int) :
    (to_result v = .ok ↔ v = 0) ∧
    (v < 0 → to_result v = .err |v|) ∧
    (0 < v → to_result v = .unreachable) := by
  refine ⟨⟨fun h => ?_, fun h => by simp [to_result, h]⟩, fun h => ?_, fun h => ?_⟩
  · by_contra hv
    rcases lt_or_gt_of_ne hv with hlt | hgt
    · simp [to_result, hv, hlt] at h
    · simp [to_result, hv, not_lt.mpr hgt.le] at h
  · rw [abs_of_neg h]
    simp [to_result, h.ne, h]
  · simp [to_result, h.ne', not_lt.mpr h.le]

/-- Witness for `to_result_trichotomy` at concrete inputs. -/
theorem to_result_trichotomy_witness :
    to_result 0 = .ok ∧ to_result (-5) = .err 5 ∧ to_result 3 = .unreachable := by
  refine ⟨(to_result_trichotomy 0).1.mpr rfl, ?_, (to_result_trichotomy 3).2.2 (by decide)⟩
  have h := (to_result_trichotomy (-5)).2.1 (by decide)
  simpa using h

/-- C9: the size-returning conversion maps every non-negative raw value `v`
to `Ok` of `v` interpreted as a count, and every negative raw value to an
error carrying the absolute magnitude, exactly as the bare-status form
does. -/
theorem to_result_size_spec (v : Int) :
    (0 ≤ v → to_result_size v = .ok v.toNat ∧ (v.toNat : Int) = v) ∧
    (v < 0 → to_result_size v = .error |v| ∧ to_result v = .err |v|) := by
  constructor
  · intro h
    exact ⟨by simp [to_result_size, not_lt.mpr h], Int.toNat_of_nonneg h⟩
  · intro h
    rw [abs_of_neg h]
    refine ⟨by simp [to_result_size, h], ?_⟩
    simp [to_result, h.ne, h]

/-- Witness for `to_result_size_spec` at concrete inputs. -/
theorem to_result_size_spec_witness :
    (to_result_size 7 = .ok 7 ∧ ((7 : Int).toNat : Int) = 7) ∧
    to_result_size (-4) = .error 4 ∧ to_result (-4) = .err 4 := by
  refine ⟨?_, ?_⟩
  · have h := (to_result_size_spec 7).1 (by decide)
    simpa using h
  · have h := (to_result_size_spec (-4)).2 (by decide)
    simpa using h

/- ### Theorems: `Target::from_ptr` -/

/-- C7: constructing a `Target` from a raw pointer panics if and only if the
pointer is null; for every non-null pointer construction succeeds and the
contained handle is the (non-null) pointer. -/
theorem target_from_ptr_spec (ptr : Nat) :
    (Target.from_ptr ptr = none ↔ ptr = 0) ∧
    (∀ t, Target.from_ptr ptr = some t → t.handle ≠ 0 ∧ t.handle = ptr) := by
  constructor
  · constructor
    · intro h
      by_contra hp
      simp [Target.from_ptr, hp] at h
    · intro h
      simp [Target.from_ptr, h]
  · intro t ht
    by_cases hp : ptr = 0
    · simp [Target.from_ptr, hp] at ht
    · simp [Target.from_ptr, hp] at ht
      exact ⟨by simp [← ht, hp], by simp [← ht]⟩

/-- Witness for `target_from_ptr_spec` at concrete inputs. -/
theorem target_from_ptr_spec_witness :
    (Target.from_ptr 0 = none) ∧ (⟨5⟩ : Target).handle ≠ 0 ∧ (⟨5⟩ : Target).handle = 5 :=
  ⟨(target_from_ptr_spec 0).1.mpr rfl, (target_from_ptr_spec 5).2 ⟨5⟩ rfl⟩

/- ### Theorems: `Target::remove_subsystem` -/

/-- C1: `remove_subsystem` branches on the raw return of the destroy
primitive in exactly three ways — zero: the registration invokes the
success-completion path inline and the await resolves `Ok`;
`-EINPROGRESS`: the registration returns `Ok` with the completion still
deferred (the call is pending) and resolves `Ok` when the deferred
completion fires; any other negative status: the call resolves with that
error. -/
theorem remove_subsystem_outcomes (v : Int) :
    (v = 0 → remove_subsystem v = .resolved (.ok ())) ∧
    (v = -EINPROGRESS →
      remove_subsystem_registration v ⟨none⟩ = .ret (.ok ()) ⟨none⟩ ∧
      remove_subsystem v = .pending ∧
      fireDeferred (remove_subsystem v) complete_with_ok = .resolved (.ok ())) ∧
    (v < 0 → v ≠ -EINPROGRESS → remove_subsystem v = .resolved (.error (-v))) := by
  refine ⟨fun h => ?_, fun h => ?_, fun hneg hne => ?_⟩
  · subst h
    rfl
  · subst h
    exact ⟨rfl, rfl, rfl⟩
  · have h0 : v ≠ 0 := hneg.ne
    have hEP : ¬(-v = EINPROGRESS) := by
      simp only [EINPROGRESS] at hne ⊢
      omega
    simp [remove_subsystem, promiseAwait, remove_subsystem_registration, to_result,
      h0, hneg, hEP]

/-- Witness for `remove_subsystem_outcomes` at concrete inputs. -/
theorem remove_subsystem_outcomes_witness :
    remove_subsystem 0 = .resolved (.ok ()) ∧
    remove_subsystem (-EINPROGRESS) = .pending ∧
    fireDeferred (remove_subsystem (-EINPROGRESS)) complete_with_ok = .resolved (.ok ()) ∧
    remove_subsystem (-5) = .resolved (.error 5) := by
  refine ⟨(remove_subsystem_outcomes 0).1 rfl,
    ((remove_subsystem_outcomes (-EINPROGRESS)).2.1 rfl).2.1,
    ((remove_subsystem_outcomes (-EINPROGRESS)).2.1 rfl).2.2, ?_⟩
  have h := (remove_subsystem_outcomes (-5)).2.2 (by decide) (by decide)
  simpa using h

/-- C10: a call to `remove_subsystem` consumes the `Subsystem` value
unconditionally — whatever the destroy primitive returns, the caller
retains no subsystem afterwards, in particular also when the call resolves
with an error. -/
theorem remove_subsystem_consumes (env : Nat → Int) (s : Subsystem) :
    (remove_subsystem_call env s).2 = none ∧
    (∀ e, (remove_subsystem_call env s).1 = .resolved (.error e) →
      (remove_subsystem_call env s).2 = none) :=
  ⟨rfl, fun _ _ => rfl⟩

/-- Witness for `remove_subsystem_consumes`: a subsystem whose destroy
primitive rejects the destruction (status `-1`, not a destroyable state) is
still gone from the caller after the failed call. -/
theorem remove_subsystem_consumes_witness :
    (remove_subsystem_call (fun _ => -1) ⟨1, .inactive⟩).1 = .resolved (.error 1) ∧
    (remove_subsystem_call (fun _ => -1) ⟨1, .inactive⟩).2 = none :=
  ⟨rfl, (remove_subsystem_consumes (fun _ => -1) ⟨1, .inactive⟩).2 1 rfl⟩

/- ### Theorems: `Target::add_transport` -/

/-- C2: on a successful awaited completion `add_transport` forgets the
transport (the caller's destructor never runs, ownership transferred) and
returns `Ok`; on a failed completion it itself destroys the transport and
returns the original failure status, not the teardown's; a teardown failure
is fatal (the `expect` panics), not a returned status. -/
theorem add_transport_ownership (res destroyRes : Except Int Unit) :
    (res = .ok () →
      add_transport res destroyRes = ⟨some (.ok ()), true, false⟩) ∧
    (∀ e, res = .error e → destroyRes = .ok () →
      add_transport res destroyRes = ⟨some (.error e), false, true⟩) ∧
    (∀ e e', res = .error e → destroyRes = .error e' →
      add_transport res destroyRes = ⟨none, false, true⟩) :=
  ⟨fun h => by subst h; rfl,
   fun e h hd => by subst h; subst hd; rfl,
   fun e e' h hd => by subst h; subst hd; rfl⟩

/-- Witness for `add_transport_ownership` at concrete inputs. -/
theorem add_transport_ownership_witness :
    add_transport (.ok ()) (.ok ()) = ⟨some (.ok ()), true, false⟩ ∧
    add_transport (.error 3) (.ok ()) = ⟨some (.error 3), false, true⟩ ∧
    add_transport (.error 3) (.error 7) = ⟨none, false, true⟩ :=
  ⟨(add_transport_ownership (.ok ()) (.ok ())).1 rfl,
   (add_transport_ownership (.error 3) (.ok ())).2.1 3 rfl rfl,
   (add_transport_ownership (.error 3) (.error 7)).2.2 3 7 rfl rfl⟩

/- ### Theorems: `Target::add_subsystem` -/

/-- C6: `add_subsystem` fails with `ENOMEM` exactly when the creation
primitive returns a null handle, and for every non-null handle returns a
new subsystem wrapping that handle in the `Inactive` state. -/
theorem add_subsystem_spec (created : Nat) :
    (created = 0 → add_subsystem created = .error ENOMEM) ∧
    (created ≠ 0 →
      add_subsystem created = .ok (some ⟨created, .inactive⟩)) := by
  constructor
  · intro h
    simp [add_subsystem, h]
  · intro h
    simp [add_subsystem, Subsystem.from_ptr, h]

/-- Witness for `add_subsystem_spec` at concrete inputs. -/
theorem add_subsystem_spec_witness :
    add_subsystem 0 = .error ENOMEM ∧
    add_subsystem 7 = .ok (some ⟨7, .inactive⟩) :=
  ⟨(add_subsystem_spec 0).1 rfl, (add_subsystem_spec 7).2 (by decide)⟩

/- ### Theorems: the subsystem bulk operations -/

/-- Unfolding `apply_subsystems` when the head subsystem's operation
fails. -/
theorem apply_subsystems_cons_err (op : Subsystem → Except Int Subsystem)
    (s : Subsystem) (rest : List Subsystem) (e : Int) (h : op s = .error e) :
    apply_subsystems op (s :: rest) = (.error e, s :: rest, [s.handle]) := by
  simp [apply_subsystems, h]

/-- Unfolding `apply_subsystems` when the head subsystem's operation
succeeds. -/
theorem apply_subsystems_cons_ok (op : Subsystem → Except Int Subsystem)
    (s s' : Subsystem) (rest : List Subsystem) (h : op s = .ok s') :
    apply_subsystems op (s :: rest) =
      ((apply_subsystems op rest).1,
       s' :: (apply_subsystems op rest).2.1,
       s.handle :: (apply_subsystems op rest).2.2) := by
  simp [apply_subsystems, h]

/-- C5: `start_subsystems` applies the start operation to every owned
subsystem sequentially in iteration order; the first failure is returned,
the subsystems before it stay transitioned to `Active` (no rollback), and
the subsystems after it are never attempted. -/
theorem start_subsystems_first_failure (env : Nat → Except Int Unit)
    (pre post : List Subsystem) (b : Subsystem) (e : Int)
    (hpre : ∀ s ∈ pre, env s.handle = .ok ())
    (hb : env b.handle = .error e) :
    start_subsystems env (pre ++ b :: post) =
      (.error e,
       pre.map (fun s => ⟨s.handle, SubsystemState.active⟩) ++ b :: post,
       pre.map Subsystem.handle ++ [b.handle]) := by
  induction pre with
  | nil =>
    have hstep : Subsystem.start env b = .error e := by
      simp [Subsystem.start, hb]
    simp [start_subsystems, apply_subsystems_cons_err _ _ _ _ hstep]
  | cons a rest ih =>
    have ha : Subsystem.start env a = .ok ⟨a.handle, .active⟩ := by
      simp [Subsystem.start, hpre a (by simp)]
    have ih' := ih (fun s hs => hpre s (by simp [hs]))
    simp only [start_subsystems] at ih' ⊢
    rw [List.cons_append, apply_subsystems_cons_ok _ _ _ _ ha, ih']
    simp

/-- Witness for `start_subsystems_first_failure`: over subsystems
`[A, B, C]` with handles `1, 2, 3` where `B`'s start fails with status `5`,
`A` ends `Active`, `B`'s failure is returned, and `C` is never attempted
(its handle is absent from the attempted list). -/
theorem start_subsystems_first_failure_witness :
    start_subsystems (fun h => if h = 2 then .error 5 else .ok ())
        [⟨1, .inactive⟩, ⟨2, .inactive⟩, ⟨3, .inactive⟩] =
      (.error 5, [⟨1, .active⟩, ⟨2, .inactive⟩, ⟨3, .inactive⟩], [1, 2]) := by
  have h := start_subsystems_first_failure
    (fun h => if h = 2 then .error 5 else .ok ())
    [⟨1, .inactive⟩] [⟨3, .inactive⟩] ⟨2, .inactive⟩ 5
    (by intro s hs; simp at hs; subst hs; rfl) rfl
  simpa using h

/- ### Theorems: the `Targets` iterator -/

/-- Running the iterator from a null cursor yields nothing, for any fuel. -/
theorem targets_run_null (next_tgt : Nat → Nat) (fuel : Nat) :
    Targets.run next_tgt ⟨0⟩ fuel = [] := by
  cases fuel with
  | zero => rfl
  | succ n => simp [Targets.run, Targets.next]

/-- Splitting a chain at its head: the head links to the head of the tail
(or to null if the tail is empty), and the tail is again a chain. -/
theorem isChain_cons (next_tgt : Nat → Nat) (a : Nat) (l : List Nat)
    (h : isChain next_tgt (a :: l)) :
    next_tgt a = l.headD 0 ∧ isChain next_tgt l := by
  cases l with
  | nil => exact ⟨h, trivial⟩
  | cons b rest => exact ⟨h.1, h.2⟩

/-- Driving the iterator over a chain of non-null handles yields exactly the
chain's handles, in linkage order, for any sufficient fuel. -/
theorem targets_run_chain (next_tgt : Nat → Nat) :
    ∀ (l : List Nat), (∀ x ∈ l, x ≠ 0) → isChain next_tgt l →
    ∀ fuel, l.length ≤ fuel →
    Targets.run next_tgt ⟨l.headD 0⟩ fuel = l.map Target.mk := by
  intro l
  induction l with
  | nil =>
    intro _ _ fuel _
    simpa using targets_run_null next_tgt fuel
  | cons a rest ih =>
    intro hnz hchain fuel hfuel
    obtain ⟨hnext, hchain'⟩ := isChain_cons next_tgt a rest hchain
    have ha : a ≠ 0 := hnz a (by simp)
    cases fuel with
    | zero => simp at hfuel
    | succ f =>
      have hf : rest.length ≤ f := by simpa using hfuel
      have ihr := ih (fun x hx => hnz x (by simp [hx])) hchain' f hf
      simp only [List.headD_cons, List.map_cons]
      simp [Targets.run, Targets.next, Target.from_ptr, ha]
      rw [hnext]
      exact ihr

/-- C4: `Targets::next` returns end-of-sequence when the cursor is null,
and otherwise captures the current handle, overwrites the cursor with the
collaborator's next handle, and returns the captured handle wrapped as a
`Target`; consequently iterating an empty collection yields no items, and
iterating a collection whose collaborator links the non-null handles `l`
yields exactly those handles in linkage order and then terminates (any
fuel beyond the length yields nothing more). -/
theorem targets_iteration (next_tgt : Nat → Nat) :
    (∀ it : Targets, it.cursor = 0 → Targets.next next_tgt it = (none, it)) ∧
    (∀ it : Targets, it.cursor ≠ 0 →
      Targets.next next_tgt it = (some ⟨it.cursor⟩, ⟨next_tgt it.cursor⟩)) ∧
    (∀ fuel, Targets.run next_tgt (targets 0) fuel = []) ∧
    (∀ (l : List Nat), (∀ x ∈ l, x ≠ 0) → isChain next_tgt l →
      ∀ fuel, l.length ≤ fuel →
      Targets.run next_tgt (targets (l.headD 0)) fuel = l.map Target.mk) := by
  refine ⟨fun it h => by simp [Targets.next, h],
    fun it h => by simp [Targets.next, Target.from_ptr, h],
    fun fuel => targets_run_null next_tgt fuel,
    fun l hnz hch fuel hf => targets_run_chain next_tgt l hnz hch fuel hf⟩

/-- Witness for `targets_iteration`: the chain `1 → 2 → 3 → null` yields
exactly the targets `1, 2, 3` in order (with fuel to spare), and the empty
collection yields nothing. -/
theorem targets_iteration_witness :
    Targets.run (fun h => if h = 1 then 2 else if h = 2 then 3 else 0)
      (targets 1) 5 = [⟨1⟩, ⟨2⟩, ⟨3⟩] ∧
    Targets.run (fun h => if h = 1 then 2 else if h = 2 then 3 else 0)
      (targets 0) 5 = [] := by
  have h4 := (targets_iteration (fun h => if h = 1 then 2 else if h = 2 then 3 else 0)).2.2.2
    [1, 2, 3] (by decide) (by simp [isChain]) 5 (by decide)
  have h3 := (targets_iteration (fun h => if h = 1 then 2 else if h = 2 then 3 else 0)).2.2.1 5
  exact ⟨by simpa using h4, h3⟩

/-- C8: a `Targets` iterator whose cursor is null is permanently exhausted:
`next` returns end-of-sequence and leaves the cursor null, so every
subsequent `next` — and hence any further fuelled run — also yields
nothing; only a fresh iterator can traverse again. -/
theorem targets_null_permanent (next_tgt : Nat → Nat) (it : Targets)
    (h : it.cursor = 0) :
    Targets.next next_tgt it = (none, it) ∧
    (Targets.next next_tgt it).2.cursor = 0 ∧
    (∀ fuel, Targets.run next_tgt it fuel = []) := by
  refine ⟨by simp [Targets.next, h], by simp [Targets.next, h], fun fuel => ?_⟩
  cases it with
  | mk c =>
    cases h
    exact targets_run_null next_tgt fuel

/-- Witness for `targets_null_permanent` at a concrete exhausted iterator. -/
theorem targets_null_permanent_witness :
    Targets.next (fun h => h + 1) ⟨0⟩ = (none, ⟨0⟩) ∧
    Targets.run (fun h => h + 1) ⟨0⟩ 4 = [] :=
  ⟨(targets_null_permanent (fun h => h + 1) ⟨0⟩ rfl).1,
   (targets_null_permanent (fun h => h + 1) ⟨0⟩ rfl).2.2 4⟩
